import Mathlib

/-!
Verification of the `AnonymousDebtManager` debt-lifecycle ledger.

A shallow embedding of `src/contracts/AnonymousDebtManager.sol`.

Modelling conventions:
* Ethereum addresses are `Nat`; `0` is the zero address (`address(0)`);
  real callers are never the zero address.
* FHE ciphertexts are opaque to the ledger.  We carry the plaintext value
  as a `Nat`: `FHE.asEuint64/asEuint32` are the identity and
  `FHE.decrypt (FHE.gt a 0)` is `0 < a`.  The ledger never computes on
  these values, matching the black-box role of the encryption service.
* `keccak256(abi.encodePacked(...))` digests are modelled as the free
  term algebra `B32`: one constructor per call-site shape, applied to the
  exact fields the contract hashes.
* Each `external` function becomes `State → arguments → Except Err ...`;
  a `require` failure is `Except.error` carrying the error for that
  revert string.  Transaction atomicity of the EVM is reflected in
  `step`, which leaves the state unchanged on error.
* `block.timestamp` and `msg.sender` are explicit arguments (`now`,
  `sender`).
-/

namespace DebtManager

abbrev Address := Nat

/-- `enum DebtStatus { ACTIVE, RESTRUCTURING, RESOLVED, DEFAULTED }`. -/
inductive DebtStatus where
  | ACTIVE
  | RESTRUCTURING
  | RESOLVED
  | DEFAULTED
deriving DecidableEq, Repr

/-- `enum ProposalStatus { PENDING, ACCEPTED, REJECTED, EXECUTED }`. -/
inductive ProposalStatus where
  | PENDING
  | ACCEPTED
  | REJECTED
  | EXECUTED
deriving DecidableEq, Repr

/-- `bytes32` integrity digests, as the free algebra of the two
`keccak256(abi.encodePacked(...))` call shapes in the contract.
`zero` is the default `bytes32(0)`. -/
inductive B32 where
  | zero
  | debtHash (debtor : Address) (amount rate term time : Nat)
  | propHash (debtId : Nat) (proposer : Address) (amount rate term time : Nat)
deriving DecidableEq, Repr

/-- `struct DebtRecord`. -/
structure DebtRecord where
  debtor : Address
  encryptedAmount : Nat
  encryptedInterestRate : Nat
  originalTerm : Nat
  remainingTerm : Nat
  createdAt : Nat
  status : DebtStatus
  isAnonymous : Bool
  dataHash : B32
deriving DecidableEq, Repr

/-- The all-zero `DebtRecord` a Solidity mapping returns for an absent key. -/
def defaultDebt : DebtRecord :=
  { debtor := 0, encryptedAmount := 0, encryptedInterestRate := 0,
    originalTerm := 0, remainingTerm := 0, createdAt := 0,
    status := .ACTIVE, isAnonymous := false, dataHash := .zero }

/-- `struct RestructuringProposal`. -/
structure RestructuringProposal where
  debtId : Nat
  proposer : Address
  newEncryptedAmount : Nat
  newEncryptedRate : Nat
  newTerm : Nat
  proposedAt : Nat
  status : ProposalStatus
  creditorApproval : Bool
  debtorApproval : Bool
  reason : String
  proposalHash : B32
deriving DecidableEq, Repr

/-- The all-zero `RestructuringProposal` for an absent key. -/
def defaultProposal : RestructuringProposal :=
  { debtId := 0, proposer := 0, newEncryptedAmount := 0, newEncryptedRate := 0,
    newTerm := 0, proposedAt := 0, status := .PENDING,
    creditorApproval := false, debtorApproval := false,
    reason := "", proposalHash := .zero }

/-- Contract storage. -/
structure State where
  owner : Address
  nextDebtId : Nat
  nextProposalId : Nat
  debts : Nat → DebtRecord
  proposals : Nat → RestructuringProposal
  userDebts : Address → List Nat
  userProposals : Address → List Nat
  authorizedCreditors : Address → Bool

/-- One error per distinct revert string. -/
inductive Err where
  | OnlyOwner
  | OnlyDebtor
  | InvalidDebtId
  | DebtNotExist
  | InvalidProposalId
  | ProposalNotExist
  | AmountNotPositive
  | TermZero
  | TermTooLarge
  | ReasonEmpty
  | DebtNotEligible
  | ProposalNotPending
  | CreditorAlreadyApproved
  | DebtorAlreadyApproved
  | NotAuthorizedApprove
  | ProposalNotAccepted
  | DebtNotActive
  | NotAuthorizedDefault
  | CannotDefault
  | InvalidCreditorAddress
deriving DecidableEq, Repr

/-- `modifier validDebt(uint256 debtId)`: `some e` is the revert. -/
def validDebt (st : State) (debtId : Nat) : Option Err :=
  if ¬ (0 < debtId ∧ debtId < st.nextDebtId) then some .InvalidDebtId
  else if (st.debts debtId).debtor = 0 then some .DebtNotExist
  else none

/-- `modifier validProposal(uint256 proposalId)`. -/
def validProposal (st : State) (proposalId : Nat) : Option Err :=
  if ¬ (0 < proposalId ∧ proposalId < st.nextProposalId) then some .InvalidProposalId
  else if (st.proposals proposalId).proposer = 0 then some .ProposalNotExist
  else none

/-- The `constructor()`: `owner = msg.sender`, both counters at 1, owner
auto-authorized as creditor. -/
def initState (deployer : Address) : State :=
  { owner := deployer, nextDebtId := 1, nextProposalId := 1,
    debts := fun _ => defaultDebt,
    proposals := fun _ => defaultProposal,
    userDebts := fun _ => [],
    userProposals := fun _ => [],
    authorizedCreditors := Function.update (fun _ => false) deployer true }

/-- `createDebt(_encryptedAmount, _encryptedInterestRate, _termInDays,
_isAnonymous)`.  Returns the new state and the returned `debtId`. -/
def createDebt (st : State) (sender now : Address)
    (amount rate term : Nat) (isAnon : Bool) : Except Err (State × Nat) :=
  if ¬ 0 < amount then .error .AmountNotPositive
  else if ¬ 0 < term then .error .TermZero
  else if ¬ term ≤ 36500 then .error .TermTooLarge
  else
    let debtId := st.nextDebtId
    let record : DebtRecord :=
      { debtor := sender, encryptedAmount := amount, encryptedInterestRate := rate,
        originalTerm := term, remainingTerm := term, createdAt := now,
        status := .ACTIVE, isAnonymous := isAnon,
        dataHash := .debtHash sender amount rate term now }
    .ok ({ st with
            nextDebtId := debtId + 1,
            debts := Function.update st.debts debtId record,
            userDebts := Function.update st.userDebts sender
              (st.userDebts sender ++ [debtId]) },
         debtId)

/-- `proposeRestructuring(_debtId, _newEncryptedAmount, _newEncryptedRate,
_newTermInDays, _reason)`.  Returns the new state and the `proposalId`. -/
def proposeRestructuring (st : State) (sender now : Address) (debtId : Nat)
    (newAmount newRate newTerm : Nat) (reason : String) :
    Except Err (State × Nat) :=
  match validDebt st debtId with
  | some e => .error e
  | none =>
    let debt := st.debts debtId
    if ¬ (debt.status = .ACTIVE ∨ debt.status = .RESTRUCTURING) then
      .error .DebtNotEligible
    else if ¬ 0 < newAmount then .error .AmountNotPositive
    else if ¬ 0 < newTerm then .error .TermZero
    else if ¬ newTerm ≤ 36500 then .error .TermTooLarge
    else if ¬ 0 < reason.length then .error .ReasonEmpty
    else
      let proposalId := st.nextProposalId
      let prop : RestructuringProposal :=
        { debtId := debtId, proposer := sender,
          newEncryptedAmount := newAmount, newEncryptedRate := newRate,
          newTerm := newTerm, proposedAt := now, status := .PENDING,
          creditorApproval := false, debtorApproval := false,
          reason := reason,
          proposalHash := .propHash debtId sender newAmount newRate newTerm now }
      .ok ({ st with
              nextProposalId := proposalId + 1,
              proposals := Function.update st.proposals proposalId prop,
              userProposals := Function.update st.userProposals sender
                (st.userProposals sender ++ [proposalId]),
              debts := Function.update st.debts debtId
                { debt with status := .RESTRUCTURING } },
           proposalId)

/-- `approveProposal(_proposalId, _approve)`.

The source checks `!creditorApproval` before writing the creditor flag and
`!debtorApproval` after it; since the creditor write never touches
`debtorApproval` and a failed `require` reverts the whole call, performing
both checks before both writes is observationally identical. -/
def approveProposal (st : State) (sender : Address) (proposalId : Nat)
    (approve : Bool) : Except Err State :=
  match validProposal st proposalId with
  | some e => .error e
  | none =>
    let prop := st.proposals proposalId
    if ¬ prop.status = .PENDING then .error .ProposalNotPending
    else
      let debt := st.debts prop.debtId
      let isCreditor := st.authorizedCreditors sender
      let isDebtor := debt.debtor = sender
      if ¬ (isCreditor ∨ isDebtor) then .error .NotAuthorizedApprove
      else if isCreditor ∧ prop.creditorApproval then .error .CreditorAlreadyApproved
      else if isDebtor ∧ prop.debtorApproval then .error .DebtorAlreadyApproved
      else
        let prop1 := if isCreditor then { prop with creditorApproval := approve } else prop
        let prop2 := if isDebtor then { prop1 with debtorApproval := approve } else prop1
        if approve = false then
          .ok { st with
                proposals := Function.update st.proposals proposalId
                  { prop2 with status := .REJECTED },
                debts := Function.update st.debts prop.debtId
                  { debt with status := .ACTIVE } }
        else if prop2.creditorApproval ∧ prop2.debtorApproval then
          .ok { st with
                proposals := Function.update st.proposals proposalId
                  { prop2 with status := .ACCEPTED } }
        else
          .ok { st with
                proposals := Function.update st.proposals proposalId prop2 }

/-- `executeProposal(_proposalId)`.  Note `msg.sender` is only used for
events: the result does not depend on the caller. -/
def executeProposal (st : State) (now : Nat) (proposalId : Nat) :
    Except Err State :=
  match validProposal st proposalId with
  | some e => .error e
  | none =>
    let prop := st.proposals proposalId
    if ¬ prop.status = .ACCEPTED then .error .ProposalNotAccepted
    else
      let debt := st.debts prop.debtId
      let newDebt : DebtRecord :=
        { debt with
            encryptedAmount := prop.newEncryptedAmount,
            encryptedInterestRate := prop.newEncryptedRate,
            remainingTerm := prop.newTerm,
            status := .ACTIVE,
            dataHash := .debtHash debt.debtor prop.newEncryptedAmount
              prop.newEncryptedRate prop.newTerm now }
      .ok { st with
            debts := Function.update st.debts prop.debtId newDebt,
            proposals := Function.update st.proposals proposalId
              { prop with status := .EXECUTED } }

/-- `markDebtResolved(_debtId)`.  `onlyDebtor` runs before `validDebt`,
matching the modifier order in the source. -/
def markDebtResolved (st : State) (sender : Address) (debtId : Nat) :
    Except Err State :=
  if ¬ (st.debts debtId).debtor = sender then .error .OnlyDebtor
  else
    match validDebt st debtId with
    | some e => .error e
    | none =>
      let debt := st.debts debtId
      if ¬ debt.status = .ACTIVE then .error .DebtNotActive
      else
        .ok { st with
              debts := Function.update st.debts debtId
                { debt with status := .RESOLVED, remainingTerm := 0 } }

/-- `markDebtDefaulted(_debtId)`. -/
def markDebtDefaulted (st : State) (sender : Address) (debtId : Nat) :
    Except Err State :=
  match validDebt st debtId with
  | some e => .error e
  | none =>
    if ¬ (st.authorizedCreditors sender ∨ sender = st.owner) then
      .error .NotAuthorizedDefault
    else
      let debt := st.debts debtId
      if ¬ (debt.status = .ACTIVE ∨ debt.status = .RESTRUCTURING) then
        .error .CannotDefault
      else
        .ok { st with
              debts := Function.update st.debts debtId
                { debt with status := .DEFAULTED } }

/-- `setAuthorizedCreditor(_creditor, _authorized)` with its `onlyOwner`
modifier. -/
def setAuthorizedCreditor (st : State) (sender creditor : Address)
    (authorized : Bool) : Except Err State :=
  if ¬ sender = st.owner then .error .OnlyOwner
  else if creditor = 0 then .error .InvalidCreditorAddress
  else
    .ok { st with
          authorizedCreditors :=
            Function.update st.authorizedCreditors creditor authorized }

/-- Return shape of `getDebtInfo`. -/
structure DebtInfo where
  debtor : Address
  originalTerm : Nat
  remainingTerm : Nat
  createdAt : Nat
  status : DebtStatus
  isAnonymous : Bool
  dataHash : B32
deriving DecidableEq, Repr

/-- `getDebtInfo(_debtId)`: redacts `debtor` to `address(0)` when the
record is anonymous. -/
def getDebtInfo (st : State) (debtId : Nat) : Except Err DebtInfo :=
  match validDebt st debtId with
  | some e => .error e
  | none =>
    let debt := st.debts debtId
    .ok { debtor := if debt.isAnonymous then 0 else debt.debtor,
          originalTerm := debt.originalTerm,
          remainingTerm := debt.remainingTerm,
          createdAt := debt.createdAt,
          status := debt.status,
          isAnonymous := debt.isAnonymous,
          dataHash := debt.dataHash }

/-- One external mutating call with its caller and timestamp. -/
inductive Op where
  | createDebt (sender now amount rate term : Nat) (isAnon : Bool)
  | proposeRestructuring (sender now debtId newAmount newRate newTerm : Nat)
      (reason : String)
  | approveProposal (sender proposalId : Nat) (approve : Bool)
  | executeProposal (sender now proposalId : Nat)
  | markDebtResolved (sender debtId : Nat)
  | markDebtDefaulted (sender debtId : Nat)
  | setAuthorizedCreditor (sender creditor : Nat) (authorized : Bool)
deriving DecidableEq, Repr

/-- The caller of an operation. -/
def Op.sender : Op → Address
  | .createDebt s _ _ _ _ _ => s
  | .proposeRestructuring s _ _ _ _ _ _ => s
  | .approveProposal s _ _ => s
  | .executeProposal s _ _ => s
  | .markDebtResolved s _ => s
  | .markDebtDefaulted s _ => s
  | .setAuthorizedCreditor s _ _ => s

/-- Run one call, dropping the return value. -/
def exec (st : State) : Op → Except Err State
  | .createDebt s n a r t an => (createDebt st s n a r t an).map Prod.fst
  | .proposeRestructuring s n d a r t re =>
      (proposeRestructuring st s n d a r t re).map Prod.fst
  | .approveProposal s p ap => approveProposal st s p ap
  | .executeProposal _ n p => executeProposal st n p
  | .markDebtResolved s d => markDebtResolved st s d
  | .markDebtDefaulted s d => markDebtDefaulted st s d
  | .setAuthorizedCreditor s c au => setAuthorizedCreditor st s c au

/-- EVM transaction semantics: a reverted call leaves storage unchanged. -/
def step (st : State) (op : Op) : State :=
  match exec st op with
  | .ok st' => st'
  | .error _ => st

/-- Run a sequence of transactions. -/
def run (st : State) (ops : List Op) : State :=
  ops.foldl step st

/-- A state reachable from deployment by calls whose senders are real
(non-zero) addresses. -/
def Reach (st : State) : Prop :=
  ∃ deployer ops, deployer ≠ 0 ∧ (∀ op ∈ ops, Op.sender op ≠ 0) ∧
    st = run (initState deployer) ops

/-! ## Inversion lemmas: what a successful call looks like -/

theorem createDebt_ok {st st' : State} {s n a r t : Nat} {an : Bool} {rid : Nat}
    (h : createDebt st s n a r t an = .ok (st', rid)) :
    0 < a ∧ 0 < t ∧ t ≤ 36500 ∧ rid = st.nextDebtId ∧
    st' = { st with
            nextDebtId := st.nextDebtId + 1,
            debts := Function.update st.debts st.nextDebtId
              { debtor := s, encryptedAmount := a, encryptedInterestRate := r,
                originalTerm := t, remainingTerm := t, createdAt := n,
                status := .ACTIVE, isAnonymous := an,
                dataHash := .debtHash s a r t n },
            userDebts := Function.update st.userDebts s
              (st.userDebts s ++ [st.nextDebtId]) } := by
  simp only [createDebt] at h
  split_ifs at h with h1 h2 h3
  simp only [Except.ok.injEq, Prod.mk.injEq] at h
  exact ⟨h1, h2, h3, h.2.symm, h.1.symm⟩

theorem proposeRestructuring_ok {st st' : State}
    {s n d a r t : Nat} {re : String} {pid : Nat}
    (h : proposeRestructuring st s n d a r t re = .ok (st', pid)) :
    validDebt st d = none ∧
    ((st.debts d).status = .ACTIVE ∨ (st.debts d).status = .RESTRUCTURING) ∧
    0 < a ∧ 0 < t ∧ t ≤ 36500 ∧ 0 < re.length ∧ pid = st.nextProposalId ∧
    st' = { st with
            nextProposalId := st.nextProposalId + 1,
            proposals := Function.update st.proposals st.nextProposalId
              { debtId := d, proposer := s, newEncryptedAmount := a,
                newEncryptedRate := r, newTerm := t, proposedAt := n,
                status := .PENDING, creditorApproval := false,
                debtorApproval := false, reason := re,
                proposalHash := .propHash d s a r t n },
            userProposals := Function.update st.userProposals s
              (st.userProposals s ++ [st.nextProposalId]),
            debts := Function.update st.debts d
              { st.debts d with status := .RESTRUCTURING } } := by
  simp only [proposeRestructuring] at h
  cases hv : validDebt st d with
  | some e => rw [hv] at h; exact absurd h (by simp)
  | none =>
    rw [hv] at h
    split_ifs at h with h1 h2 h3 h4 h5
    simp only [Except.ok.injEq, Prod.mk.injEq] at h
    exact ⟨rfl, h1, h2, h3, h4, h5, h.2.symm, h.1.symm⟩

theorem validDebt_none {st : State} {d : Nat} (h : validDebt st d = none) :
    0 < d ∧ d < st.nextDebtId ∧ (st.debts d).debtor ≠ 0 := by
  simp only [validDebt] at h
  split_ifs at h with h1 h2
  exact ⟨h1.1, h1.2, h2⟩

theorem validProposal_none {st : State} {p : Nat} (h : validProposal st p = none) :
    0 < p ∧ p < st.nextProposalId ∧ (st.proposals p).proposer ≠ 0 := by
  simp only [validProposal] at h
  split_ifs at h with h1 h2
  exact ⟨h1.1, h1.2, h2⟩

/-! ## Reachability invariant

Slots at or beyond the id counters are still the all-zero defaults, and
every stored proposal points at an allocated debt. -/

structure Inv (st : State) : Prop where
  nd_pos : 1 ≤ st.nextDebtId
  np_pos : 1 ≤ st.nextProposalId
  debts_default : ∀ i, st.nextDebtId ≤ i → st.debts i = defaultDebt
  props_default : ∀ p, st.nextProposalId ≤ p → st.proposals p = defaultProposal
  props_debt : ∀ p, (st.proposals p).proposer ≠ 0 →
    0 < (st.proposals p).debtId ∧ (st.proposals p).debtId < st.nextDebtId

theorem inv_init (d : Address) : Inv (initState d) :=
  ⟨le_refl 1, le_refl 1, fun _ _ => rfl, fun _ _ => rfl,
   fun _ hp => absurd rfl hp⟩

theorem inv_createDebt {st st' : State} {s n a r t : Nat} {an : Bool} {rid : Nat}
    (hi : Inv st) (h : createDebt st s n a r t an = .ok (st', rid)) : Inv st' := by
  obtain ⟨-, -, -, -, hst⟩ := createDebt_ok h
  subst hst
  refine ⟨?_, ?_, ?_, ?_, ?_⟩ <;> dsimp only
  · exact le_trans hi.nd_pos (Nat.le_succ _)
  · exact hi.np_pos
  · intro i hiq
    rw [Function.update_noteq (by omega : i ≠ st.nextDebtId)]
    exact hi.debts_default i (by omega)
  · exact hi.props_default
  · intro p hp
    exact ⟨(hi.props_debt p hp).1,
      lt_trans (hi.props_debt p hp).2 (Nat.lt_succ_self _)⟩

theorem inv_proposeRestructuring {st st' : State}
    {s n d a r t : Nat} {re : String} {pid : Nat}
    (hi : Inv st) (h : proposeRestructuring st s n d a r t re = .ok (st', pid)) :
    Inv st' := by
  obtain ⟨hv, -, -, -, -, -, -, hst⟩ := proposeRestructuring_ok h
  obtain ⟨hd0, hdlt, -⟩ := validDebt_none hv
  subst hst
  refine ⟨?_, ?_, ?_, ?_, ?_⟩ <;> dsimp only
  · exact hi.nd_pos
  · exact le_trans hi.np_pos (Nat.le_succ _)
  · intro i hiq
    rw [Function.update_noteq (by omega : i ≠ d)]
    exact hi.debts_default i hiq
  · intro p hp
    rw [Function.update_noteq (by omega : p ≠ st.nextProposalId)]
    exact hi.props_default p (by omega)
  · intro p hp
    rcases eq_or_ne p st.nextProposalId with hpe | hpe
    · subst hpe
      simp only [Function.update_same] at hp ⊢
      exact ⟨hd0, hdlt⟩
    · simp only [Function.update_noteq hpe] at hp ⊢
      exact hi.props_debt p hp

/-- Common shape of a successful `approveProposal` or `executeProposal`:
only the proposal `pid` and (possibly) its parent debt are written, and
the proposal's `proposer` and `debtId` fields are preserved. -/
def ProposalOpShape (st st' : State) (pid : Nat) : Prop :=
  validProposal st pid = none ∧
  st'.nextDebtId = st.nextDebtId ∧
  st'.nextProposalId = st.nextProposalId ∧
  (∀ q, q ≠ pid → st'.proposals q = st.proposals q) ∧
  (st'.proposals pid).proposer = (st.proposals pid).proposer ∧
  (st'.proposals pid).debtId = (st.proposals pid).debtId ∧
  (∀ i, i ≠ (st.proposals pid).debtId → st'.debts i = st.debts i)

set_option maxHeartbeats 1000000 in
theorem approveProposal_shape {st st' : State} {s pid : Nat} {ap : Bool}
    (h : approveProposal st s pid ap = .ok st') : ProposalOpShape st st' pid := by
  cases hv : validProposal st pid with
  | some e => simp [approveProposal, hv] at h
  | none =>
    simp only [approveProposal, hv] at h
    split_ifs at h <;> simp only [Except.ok.injEq] at h <;> subst h <;>
      refine ⟨hv, rfl, rfl, fun q hq => Function.update_noteq hq _ _, ?_, ?_,
        fun i hiq => ?_⟩ <;> dsimp only <;>
      first
        | rfl
        | exact Function.update_noteq hiq _ _
        | simp

theorem executeProposal_shape {st st' : State} {n pid : Nat}
    (h : executeProposal st n pid = .ok st') : ProposalOpShape st st' pid := by
  cases hv : validProposal st pid with
  | some e => simp [executeProposal, hv] at h
  | none =>
    simp only [executeProposal, hv] at h
    split_ifs at h
    simp only [Except.ok.injEq] at h
    subst h
    refine ⟨hv, rfl, rfl, fun q hq => Function.update_noteq hq _ _, ?_, ?_,
      fun i hiq => Function.update_noteq hiq _ _⟩ <;> dsimp only <;> simp

theorem inv_of_shape {st st' : State} {pid : Nat}
    (hi : Inv st) (hs : ProposalOpShape st st' pid) : Inv st' := by
  obtain ⟨hv, hnd, hnp, hq, hprop, hdid, hdebts⟩ := hs
  obtain ⟨hp0, hplt, hpnz⟩ := validProposal_none hv
  obtain ⟨hd0, hdlt⟩ := hi.props_debt pid hpnz
  refine ⟨?_, ?_, ?_, ?_, ?_⟩
  · rw [hnd]; exact hi.nd_pos
  · rw [hnp]; exact hi.np_pos
  · intro i hiq
    rw [hnd] at hiq
    rw [hdebts i (by omega)]
    exact hi.debts_default i hiq
  · intro p hp
    rw [hnp] at hp
    rw [hq p (by omega)]
    exact hi.props_default p hp
  · intro p hp
    rcases eq_or_ne p pid with hpe | hpe
    · subst hpe
      rw [hdid, hnd]
      exact ⟨hd0, hdlt⟩
    · rw [hq p hpe] at hp ⊢
      rw [hnd]
      exact hi.props_debt p hp

theorem inv_approveProposal {st st' : State} {s pid : Nat} {ap : Bool}
    (hi : Inv st) (h : approveProposal st s pid ap = .ok st') : Inv st' :=
  inv_of_shape hi (approveProposal_shape h)

theorem inv_executeProposal {st st' : State} {n pid : Nat}
    (hi : Inv st) (h : executeProposal st n pid = .ok st') : Inv st' :=
  inv_of_shape hi (executeProposal_shape h)

theorem inv_markDebtResolved {st st' : State} {s d : Nat}
    (hi : Inv st) (h : markDebtResolved st s d = .ok st') : Inv st' := by
  simp only [markDebtResolved] at h
  split_ifs at h with h1 h2
  · cases hv : validDebt st d with
    | some e => simp [hv] at h
    | none =>
      obtain ⟨hd0, hdlt, -⟩ := validDebt_none hv
      simp only [hv, Except.ok.injEq] at h
      subst h
      refine ⟨?_, ?_, ?_, ?_, ?_⟩ <;> dsimp only
      · exact hi.nd_pos
      · exact hi.np_pos
      · intro i hiq
        rw [Function.update_noteq (by omega : i ≠ d)]
        exact hi.debts_default i hiq
      · exact hi.props_default
      · exact hi.props_debt
  · cases hv : validDebt st d <;> simp [hv] at h

theorem inv_markDebtDefaulted {st st' : State} {s d : Nat}
    (hi : Inv st) (h : markDebtDefaulted st s d = .ok st') : Inv st' := by
  cases hv : validDebt st d with
  | some e => simp [markDebtDefaulted, hv] at h
  | none =>
    obtain ⟨hd0, hdlt, -⟩ := validDebt_none hv
    simp only [markDebtDefaulted, hv] at h
    split_ifs at h
    simp only [Except.ok.injEq] at h
    subst h
    refine ⟨?_, ?_, ?_, ?_, ?_⟩ <;> dsimp only
    · exact hi.nd_pos
    · exact hi.np_pos
    · intro i hiq
      rw [Function.update_noteq (by omega : i ≠ d)]
      exact hi.debts_default i hiq
    · exact hi.props_default
    · exact hi.props_debt

theorem inv_setAuthorizedCreditor {st st' : State} {s c : Nat} {b : Bool}
    (hi : Inv st) (h : setAuthorizedCreditor st s c b = .ok st') : Inv st' := by
  simp only [setAuthorizedCreditor] at h
  split_ifs at h
  simp only [Except.ok.injEq] at h
  subst h
  exact ⟨hi.nd_pos, hi.np_pos, hi.debts_default, hi.props_default, hi.props_debt⟩

theorem inv_exec {st st' : State} {op : Op}
    (hi : Inv st) (h : exec st op = .ok st') : Inv st' := by
  cases op with
  | createDebt s n a r t an =>
    cases hc : createDebt st s n a r t an with
    | error e => simp [exec, hc, Except.map] at h
    | ok p =>
      obtain ⟨st2, rid⟩ := p
      simp only [exec, hc, Except.map, Except.ok.injEq] at h
      subst h
      exact inv_createDebt hi hc
  | proposeRestructuring s n d a r t re =>
    cases hc : proposeRestructuring st s n d a r t re with
    | error e => simp [exec, hc, Except.map] at h
    | ok p =>
      obtain ⟨st2, pid⟩ := p
      simp only [exec, hc, Except.map, Except.ok.injEq] at h
      subst h
      exact inv_proposeRestructuring hi hc
  | approveProposal s p ap => exact inv_approveProposal hi h
  | executeProposal s n p => exact inv_executeProposal hi h
  | markDebtResolved s d => exact inv_markDebtResolved hi h
  | markDebtDefaulted s d => exact inv_markDebtDefaulted hi h
  | setAuthorizedCreditor s c b => exact inv_setAuthorizedCreditor hi h

theorem inv_step {st : State} (hi : Inv st) (op : Op) : Inv (step st op) := by
  cases hexec : exec st op with
  | error e => simpa [step, hexec] using hi
  | ok st' =>
    simp only [step, hexec]
    exact inv_exec hi hexec

theorem inv_run {st : State} (hi : Inv st) (ops : List Op) : Inv (run st ops) := by
  induction ops generalizing st with
  | nil => exact hi
  | cons op ops ih => exact ih (inv_step hi op)

theorem inv_reach {st : State} (h : Reach st) : Inv st := by
  obtain ⟨d, ops, -, -, hst⟩ := h
  subst hst
  exact inv_run (inv_init d) ops

/-! ## More inversion lemmas -/

theorem markDebtResolved_ok {st st' : State} {s d : Nat}
    (h : markDebtResolved st s d = .ok st') :
    (st.debts d).debtor = s ∧ validDebt st d = none ∧
    (st.debts d).status = .ACTIVE ∧
    st' = { st with
            debts := Function.update st.debts d
              { st.debts d with status := .RESOLVED, remainingTerm := 0 } } := by
  simp only [markDebtResolved] at h
  split_ifs at h with h1 h2
  · cases hv : validDebt st d with
    | some e => simp [hv] at h
    | none =>
      simp only [hv, Except.ok.injEq] at h
      exact ⟨h1, rfl, h2, h.symm⟩
  · cases hv : validDebt st d <;> simp [hv] at h

theorem markDebtDefaulted_ok {st st' : State} {s d : Nat}
    (h : markDebtDefaulted st s d = .ok st') :
    validDebt st d = none ∧
    (st.authorizedCreditors s = true ∨ s = st.owner) ∧
    ((st.debts d).status = .ACTIVE ∨ (st.debts d).status = .RESTRUCTURING) ∧
    st' = { st with
            debts := Function.update st.debts d
              { st.debts d with status := .DEFAULTED } } := by
  cases hv : validDebt st d with
  | some e => simp [markDebtDefaulted, hv] at h
  | none =>
    simp only [markDebtDefaulted, hv] at h
    split_ifs at h with h1 h2
    simp only [Except.ok.injEq] at h
    exact ⟨rfl, h1, h2, h.symm⟩

theorem setAuthorizedCreditor_ok {st st' : State} {s c : Nat} {b : Bool}
    (h : setAuthorizedCreditor st s c b = .ok st') :
    s = st.owner ∧ c ≠ 0 ∧
    st' = { st with
            authorizedCreditors :=
              Function.update st.authorizedCreditors c b } := by
  simp only [setAuthorizedCreditor] at h
  split_ifs at h with h1 h2
  simp only [Except.ok.injEq] at h
  exact ⟨h1, h2, h.symm⟩

theorem step_of_error {st : State} {op : Op} {e : Err}
    (h : exec st op = .error e) : step st op = st := by
  simp [step, h]

theorem step_of_ok {st st' : State} {op : Op}
    (h : exec st op = .ok st') : step st op = st' := by
  simp [step, h]

/-- The two operations that act on a stored proposal (and through it on
its parent debt). -/
def Op.touchesProposal : Op → Bool
  | .approveProposal _ _ _ => true
  | .executeProposal _ _ _ => true
  | _ => false


/-! ## Claim C1 -/

/-- Trace for the C1 counterexample: debtor 2 creates debt 1, proposes a
restructuring (debt becomes RESTRUCTURING, proposal 1 PENDING), the owner
marks the debt DEFAULTED. -/
def c1State : State :=
  run (initState 1)
    [ .createDebt 2 10 5 1 100 false,
      .proposeRestructuring 2 11 1 6 1 200 "hardship",
      .markDebtDefaulted 1 1 ]

/-- C1 as stated is false: `c1State` is reachable, debt 1 is DEFAULTED
there, proposal 1 is still PENDING, and the debtor casting a `false` vote
via `approveProposal` moves the debt back to ACTIVE — an operation does
move a debt out of DEFAULTED. -/
theorem C1_counterexample :
    Reach c1State ∧
    (c1State.debts 1).status = DebtStatus.DEFAULTED ∧
    (c1State.proposals 1).status = ProposalStatus.PENDING ∧
    ((step c1State (.approveProposal 2 1 false)).debts 1).status
      = DebtStatus.ACTIVE := by
  refine ⟨⟨1, _, by decide, by decide, rfl⟩, by decide, by decide, by decide⟩

/-- C1 (amended): on every reachable state, every operation other than
`approveProposal` and `executeProposal` (the two operations acting through
a stored proposal) leaves the status of a RESOLVED or DEFAULTED debt
unchanged; the excluded two can move such a debt back to ACTIVE, as the
counterexample shows. -/
theorem C1_terminal_status_preserved (st : State) (hre : Reach st) (op : Op)
    (hop : Op.touchesProposal op = false) (i : Nat)
    (hterm : (st.debts i).status = DebtStatus.RESOLVED ∨
             (st.debts i).status = DebtStatus.DEFAULTED) :
    ((step st op).debts i).status = (st.debts i).status := by
  have hi := inv_reach hre
  have hterm' : (st.debts i).status ≠ DebtStatus.ACTIVE ∧
      (st.debts i).status ≠ DebtStatus.RESTRUCTURING := by
    rcases hterm with h | h <;> rw [h] <;> exact ⟨by decide, by decide⟩
  cases hexec : exec st op with
  | error e => rw [step_of_error hexec]
  | ok st' =>
    rw [step_of_ok hexec]
    cases op with
    | createDebt s n a r t an =>
      cases hc : createDebt st s n a r t an with
      | error e => simp [exec, hc, Except.map] at hexec
      | ok p =>
        obtain ⟨st2, rid⟩ := p
        simp only [exec, hc, Except.map, Except.ok.injEq] at hexec
        subst hexec
        obtain ⟨-, -, -, -, hst⟩ := createDebt_ok hc
        subst hst
        dsimp only
        have hne : i ≠ st.nextDebtId := by
          intro hie
          have hd := hi.debts_default i (le_of_eq hie.symm)
          rw [hd] at hterm'
          exact hterm'.1 rfl
        rw [Function.update_noteq hne]
    | proposeRestructuring s n d a r t re =>
      cases hc : proposeRestructuring st s n d a r t re with
      | error e => simp [exec, hc, Except.map] at hexec
      | ok p =>
        obtain ⟨st2, pid⟩ := p
        simp only [exec, hc, Except.map, Except.ok.injEq] at hexec
        subst hexec
        obtain ⟨-, hel, -, -, -, -, -, hst⟩ := proposeRestructuring_ok hc
        subst hst
        dsimp only
        have hne : i ≠ d := by
          intro hie
          subst hie
          rcases hel with h | h
          · exact hterm'.1 h
          · exact hterm'.2 h
        rw [Function.update_noteq hne]
    | approveProposal s p ap => simp [Op.touchesProposal] at hop
    | executeProposal s n p => simp [Op.touchesProposal] at hop
    | markDebtResolved s d =>
      obtain ⟨-, -, hact, hst⟩ := markDebtResolved_ok hexec
      subst hst
      dsimp only
      have hne : i ≠ d := fun hie => hterm'.1 (hie ▸ hact)
      rw [Function.update_noteq hne]
    | markDebtDefaulted s d =>
      obtain ⟨-, -, hel, hst⟩ := markDebtDefaulted_ok hexec
      subst hst
      dsimp only
      have hne : i ≠ d := by
        intro hie
        subst hie
        rcases hel with h | h
        · exact hterm'.1 h
        · exact hterm'.2 h
      rw [Function.update_noteq hne]
    | setAuthorizedCreditor s c b =>
      obtain ⟨-, -, hst⟩ := setAuthorizedCreditor_ok hexec
      subst hst
      rfl

/-- State for the C1 witness: debt 1 created by 2 and then RESOLVED. -/
def c1WitnessState : State :=
  run (initState 1) [ .createDebt 2 10 5 1 100 false, .markDebtResolved 2 1 ]

/-- Witness for C1 (amended) at a concrete input: authorizing a creditor
leaves the RESOLVED debt 1 of `c1WitnessState` RESOLVED. -/
theorem C1_terminal_status_preserved_witness :
    ((step c1WitnessState (.setAuthorizedCreditor 1 3 true)).debts 1).status
      = (c1WitnessState.debts 1).status :=
  C1_terminal_status_preserved c1WitnessState
    ⟨1, [ .createDebt 2 10 5 1 100 false, .markDebtResolved 2 1 ],
      by decide, by decide, rfl⟩
    (.setAuthorizedCreditor 1 3 true) (by decide) 1 (Or.inl (by decide))


/-! ## Claim C2 -/

/-- Trace for C2: debtor 2 creates debt 1, proposes restructuring
(proposal 1 PENDING), then votes `true`; the creditor has not voted, so
the proposal is still PENDING with `debtorApproval = true`. -/
def c2State : State :=
  run (initState 1)
    [ .createDebt 2 10 5 1 100 false,
      .proposeRestructuring 2 11 1 6 1 200 "hardship",
      .approveProposal 2 1 true ]

/-- C2 as stated is false: in the reachable `c2State`, proposal 1 is
PENDING and caller 2 is the parent debt's debtor, yet
`approveProposal(1, false)` by 2 does not succeed — it fails with the
debtor-already-approved error because 2's own earlier `true` vote set
`debtorApproval`. -/
theorem C2_counterexample :
    Reach c2State ∧
    (c2State.proposals 1).status = ProposalStatus.PENDING ∧
    (c2State.debts (c2State.proposals 1).debtId).debtor = 2 ∧
    approveProposal c2State 2 1 false = .error .DebtorAlreadyApproved := by
  refine ⟨⟨1, _, by decide, by decide, rfl⟩, by decide, by decide, rfl⟩

/-- C2 (amended): for a PENDING proposal, `approveProposal(pid, false)` by
the parent debt's debtor or an authorized creditor succeeds — provided the
caller's own role-approval flags are not already set — and it sets the
proposal REJECTED and the parent debt ACTIVE, regardless of whether the
other party had previously voted `true`. -/
theorem C2_reject_finalizes (st : State) (s pid : Nat)
    (hv : validProposal st pid = none)
    (hpend : (st.proposals pid).status = ProposalStatus.PENDING)
    (hrole : st.authorizedCreditors s = true ∨
             (st.debts (st.proposals pid).debtId).debtor = s)
    (hcown : st.authorizedCreditors s = true →
             (st.proposals pid).creditorApproval = false)
    (hdown : (st.debts (st.proposals pid).debtId).debtor = s →
             (st.proposals pid).debtorApproval = false) :
    ∃ st', approveProposal st s pid false = .ok st' ∧
      (st'.proposals pid).status = ProposalStatus.REJECTED ∧
      (st'.debts (st.proposals pid).debtId).status = DebtStatus.ACTIVE := by
  by_cases hcred : st.authorizedCreditors s = true
  · have hcf := hcown hcred
    by_cases hdeb : (st.debts (st.proposals pid).debtId).debtor = s
    · have hdf := hdown hdeb
      simp only [approveProposal, hv, hpend, hcred, hdeb, hcf, hdf]
      refine ⟨_, rfl, ?_, ?_⟩ <;> simp [Function.update_same]
    · simp only [approveProposal, hv, hpend, hcred, hdeb, hcf]
      refine ⟨_, rfl, ?_, ?_⟩ <;> simp [Function.update_same]
  · rcases hrole with h | hdeb
    · exact absurd h hcred
    · have hdf := hdown hdeb
      simp only [approveProposal, hv, hpend, hcred, hdeb, hdf]
      refine ⟨_, rfl, ?_, ?_⟩ <;> simp [Function.update_same]

/-- Witness for C2 (amended): in `c2State` the debtor has already voted
`true`; the authorized creditor 1 (the owner) votes `false` and the
proposal is rejected, the debt back to ACTIVE. -/
theorem C2_reject_finalizes_witness :
    ∃ st', approveProposal c2State 1 1 false = .ok st' ∧
      (st'.proposals 1).status = ProposalStatus.REJECTED ∧
      (st'.debts (c2State.proposals 1).debtId).status = DebtStatus.ACTIVE :=
  C2_reject_finalizes c2State 1 1 (by decide) (by decide)
    (Or.inl (by decide)) (fun _ => by decide) (fun h => absurd h (by decide))


/-! ## Claim C3 -/

/-- C3: for a PENDING proposal, a caller who is neither the debt's debtor
nor an authorized creditor fails with the unauthorized error; a repeat
vote by a role whose flag is already set fails with the corresponding
already-approved error (creditor checked first, as in the source); and a
successful call yields ACCEPTED only when both approval flags are true in
the result. -/
theorem C3_one_shot_votes (st : State) (s pid : Nat) (ap : Bool)
    (hv : validProposal st pid = none)
    (hpend : (st.proposals pid).status = ProposalStatus.PENDING) :
    (st.authorizedCreditors s = false →
     (st.debts (st.proposals pid).debtId).debtor ≠ s →
      approveProposal st s pid ap = .error .NotAuthorizedApprove) ∧
    (st.authorizedCreditors s = true →
     (st.proposals pid).creditorApproval = true →
      approveProposal st s pid ap = .error .CreditorAlreadyApproved) ∧
    ((st.debts (st.proposals pid).debtId).debtor = s →
     (st.authorizedCreditors s = true →
       (st.proposals pid).creditorApproval = false) →
     (st.proposals pid).debtorApproval = true →
      approveProposal st s pid ap = .error .DebtorAlreadyApproved) ∧
    (∀ st', approveProposal st s pid ap = .ok st' →
      (st'.proposals pid).status = ProposalStatus.ACCEPTED →
      (st'.proposals pid).creditorApproval = true ∧
      (st'.proposals pid).debtorApproval = true) := by
  refine ⟨?_, ?_, ?_, ?_⟩
  · intro h1 h2
    simp [approveProposal, hv, hpend, h1, h2]
  · intro h1 h2
    simp [approveProposal, hv, hpend, h1, h2]
  · intro h1 h2 h3
    by_cases hcred : st.authorizedCreditors s = true
    · have hcf := h2 hcred
      simp [approveProposal, hv, hpend, h1, hcred, hcf, h3]
    · simp [approveProposal, hv, hpend, h1, hcred, h3]
  · intro st' hok hacc
    by_cases hcred : st.authorizedCreditors s = true <;>
      by_cases hdeb : (st.debts (st.proposals pid).debtId).debtor = s <;>
      cases hca : (st.proposals pid).creditorApproval <;>
      cases hda : (st.proposals pid).debtorApproval <;>
      cases ap <;>
      simp [approveProposal, hv, hpend, hcred, hdeb, hca, hda] at hok
    all_goals cases hok
    all_goals simp_all [Function.update_same]

/-- Trace for the C3 witness: identical shape to `c2State` — debtor 2 has
already voted `true` on its PENDING proposal 1. -/
def c3State : State :=
  run (initState 1)
    [ .createDebt 2 10 5 1 100 false,
      .proposeRestructuring 2 11 1 6 1 200 "hardship",
      .approveProposal 2 1 true ]

/-- Witness for C3 at a concrete input: debtor 2 of `c3State`, who
already voted, trying to vote again. -/
theorem C3_one_shot_votes_witness :
    ((c3State.authorizedCreditors 2 = false →
      (c3State.debts (c3State.proposals 1).debtId).debtor ≠ 2 →
       approveProposal c3State 2 1 false = .error .NotAuthorizedApprove) ∧
     (c3State.authorizedCreditors 2 = true →
      (c3State.proposals 1).creditorApproval = true →
       approveProposal c3State 2 1 false = .error .CreditorAlreadyApproved) ∧
     ((c3State.debts (c3State.proposals 1).debtId).debtor = 2 →
      (c3State.authorizedCreditors 2 = true →
        (c3State.proposals 1).creditorApproval = false) →
      (c3State.proposals 1).debtorApproval = true →
       approveProposal c3State 2 1 false = .error .DebtorAlreadyApproved) ∧
     (∀ st', approveProposal c3State 2 1 false = .ok st' →
       (st'.proposals 1).status = ProposalStatus.ACCEPTED →
       (st'.proposals 1).creditorApproval = true ∧
       (st'.proposals 1).debtorApproval = true)) :=
  C3_one_shot_votes c3State 2 1 false (by decide) (by decide)

/-! ## Claim C4 -/

/-- C4: with a valid proposal id, `executeProposal` on a non-ACCEPTED
proposal fails with the not-accepted error and (as a transaction) changes
nothing; on an ACCEPTED proposal it succeeds — for any caller, since the
result does not depend on the sender — copies the proposal's new amount,
rate and term into the parent debt, recomputes the integrity hash, sets
the debt ACTIVE and the proposal EXECUTED. -/
theorem C4_executeProposal (st : State) (n pid : Nat)
    (hv : validProposal st pid = none) :
    ((st.proposals pid).status ≠ ProposalStatus.ACCEPTED →
      executeProposal st n pid = .error .ProposalNotAccepted ∧
      ∀ s, step st (.executeProposal s n pid) = st) ∧
    ((st.proposals pid).status = ProposalStatus.ACCEPTED →
      ∃ st', executeProposal st n pid = .ok st' ∧
        (∀ s, step st (.executeProposal s n pid) = st') ∧
        (st'.debts (st.proposals pid).debtId).encryptedAmount
          = (st.proposals pid).newEncryptedAmount ∧
        (st'.debts (st.proposals pid).debtId).encryptedInterestRate
          = (st.proposals pid).newEncryptedRate ∧
        (st'.debts (st.proposals pid).debtId).remainingTerm
          = (st.proposals pid).newTerm ∧
        (st'.debts (st.proposals pid).debtId).dataHash
          = B32.debtHash (st.debts (st.proposals pid).debtId).debtor
              (st.proposals pid).newEncryptedAmount
              (st.proposals pid).newEncryptedRate
              (st.proposals pid).newTerm n ∧
        (st'.debts (st.proposals pid).debtId).status = DebtStatus.ACTIVE ∧
        (st'.proposals pid).status = ProposalStatus.EXECUTED) := by
  constructor
  · intro h
    have he : executeProposal st n pid = .error .ProposalNotAccepted := by
      simp [executeProposal, hv, h]
    exact ⟨he, fun s =>
      @step_of_error st (.executeProposal s n pid) .ProposalNotAccepted
        (by simp [exec, he])⟩
  · intro h
    simp only [executeProposal, hv, h]
    refine ⟨_, rfl, ?_, ?_, ?_, ?_, ?_, ?_, ?_⟩
    · intro s
      apply step_of_ok
      simp [exec, executeProposal, hv, h]
    all_goals simp [Function.update_same]

/-- Trace for the C4 witness: the owner 1 creates its own debt, proposes,
and accepts with a single dual-role vote, leaving proposal 1 ACCEPTED. -/
def c4State : State :=
  run (initState 1)
    [ .createDebt 1 10 5 1 100 false,
      .proposeRestructuring 1 11 1 7 2 300 "better terms",
      .approveProposal 1 1 true ]

/-- Witness for C4 at a concrete input. -/
theorem C4_executeProposal_witness :
    (((c4State.proposals 1).status ≠ ProposalStatus.ACCEPTED →
      executeProposal c4State 12 1 = .error .ProposalNotAccepted ∧
      ∀ s, step c4State (.executeProposal s 12 1) = c4State) ∧
     ((c4State.proposals 1).status = ProposalStatus.ACCEPTED →
      ∃ st', executeProposal c4State 12 1 = .ok st' ∧
        (∀ s, step c4State (.executeProposal s 12 1) = st') ∧
        (st'.debts (c4State.proposals 1).debtId).encryptedAmount
          = (c4State.proposals 1).newEncryptedAmount ∧
        (st'.debts (c4State.proposals 1).debtId).encryptedInterestRate
          = (c4State.proposals 1).newEncryptedRate ∧
        (st'.debts (c4State.proposals 1).debtId).remainingTerm
          = (c4State.proposals 1).newTerm ∧
        (st'.debts (c4State.proposals 1).debtId).dataHash
          = B32.debtHash (c4State.debts (c4State.proposals 1).debtId).debtor
              (c4State.proposals 1).newEncryptedAmount
              (c4State.proposals 1).newEncryptedRate
              (c4State.proposals 1).newTerm 12 ∧
        (st'.debts (c4State.proposals 1).debtId).status = DebtStatus.ACTIVE ∧
        (st'.proposals 1).status = ProposalStatus.EXECUTED)) :=
  C4_executeProposal c4State 12 1 (by decide)


/-! ## Claim C5 -/

/-- C5: `proposeRestructuring` succeeds only when the debt exists with
status ACTIVE or RESTRUCTURING, the new term is in 1..36500 and the
reason is non-empty; an existing debt with any other status fails with
the not-eligible error; and success allocates the next sequential
proposal id as PENDING with both approval flags false, appends it to the
caller's proposal index and sets the parent debt RESTRUCTURING. -/
theorem C5_proposeRestructuring (st st' : State) (s n d a r t : Nat)
    (re : String) (pid : Nat) :
    (proposeRestructuring st s n d a r t re = .ok (st', pid) →
      validDebt st d = none ∧
      ((st.debts d).status = DebtStatus.ACTIVE ∨
       (st.debts d).status = DebtStatus.RESTRUCTURING) ∧
      0 < t ∧ t ≤ 36500 ∧ re ≠ "" ∧
      pid = st.nextProposalId ∧
      st'.nextProposalId = st.nextProposalId + 1 ∧
      (st'.proposals pid).status = ProposalStatus.PENDING ∧
      (st'.proposals pid).creditorApproval = false ∧
      (st'.proposals pid).debtorApproval = false ∧
      st'.userProposals s = st.userProposals s ++ [pid] ∧
      (st'.debts d).status = DebtStatus.RESTRUCTURING) ∧
    (validDebt st d = none →
     (st.debts d).status ≠ DebtStatus.ACTIVE →
     (st.debts d).status ≠ DebtStatus.RESTRUCTURING →
      proposeRestructuring st s n d a r t re = .error .DebtNotEligible) := by
  constructor
  · intro h
    obtain ⟨hv, hel, ha, ht, ht2, hre, hpid, hst⟩ := proposeRestructuring_ok h
    subst hst
    subst hpid
    refine ⟨hv, hel, ht, ht2, ?_, rfl, rfl, ?_, ?_, ?_, ?_, ?_⟩
    · intro hemp
      subst hemp
      exact absurd hre (by decide)
    · simp [Function.update_same]
    · simp [Function.update_same]
    · simp [Function.update_same]
    · simp [Function.update_same]
    · simp [Function.update_same]
  · intro hv h1 h2
    simp only [proposeRestructuring, hv]
    rw [if_pos (fun hh => hh.elim h1 h2)]


/-- Pre-state for the C5 witness: debt 1 (debtor 2) is ACTIVE. -/
def c5Pre : State := run (initState 1) [ .createDebt 2 10 5 1 100 false ]

/-- Post-state for the C5 witness: caller 3 proposed restructuring. -/
def c5Post : State :=
  run c5Pre [ .proposeRestructuring 3 11 1 6 1 200 "hardship" ]

/-- Witness for C5 at a concrete input. -/
theorem C5_proposeRestructuring_witness :
    validDebt c5Pre 1 = none ∧
    ((c5Pre.debts 1).status = DebtStatus.ACTIVE ∨
     (c5Pre.debts 1).status = DebtStatus.RESTRUCTURING) ∧
    0 < 200 ∧ 200 ≤ 36500 ∧ "hardship" ≠ "" ∧
    (1 : Nat) = c5Pre.nextProposalId ∧
    c5Post.nextProposalId = c5Pre.nextProposalId + 1 ∧
    (c5Post.proposals 1).status = ProposalStatus.PENDING ∧
    (c5Post.proposals 1).creditorApproval = false ∧
    (c5Post.proposals 1).debtorApproval = false ∧
    c5Post.userProposals 3 = c5Pre.userProposals 3 ++ [1] ∧
    (c5Post.debts 1).status = DebtStatus.RESTRUCTURING :=
  (C5_proposeRestructuring c5Pre c5Post 3 11 1 6 1 200 "hardship" 1).1 rfl

/-! ## Claim C6 -/

/-- Is the operation a `createDebt` call? -/
def Op.isCreate : Op → Bool
  | .createDebt _ _ _ _ _ _ => true
  | _ => false

theorem nextDebtId_step (st : State) (op : Op)
    (hop : Op.isCreate op = false) :
    (step st op).nextDebtId = st.nextDebtId := by
  cases hexec : exec st op with
  | error e => rw [step_of_error hexec]
  | ok st' =>
    rw [step_of_ok hexec]
    cases op with
    | createDebt s n a r t an => simp [Op.isCreate] at hop
    | proposeRestructuring s n d a r t re =>
      cases hc : proposeRestructuring st s n d a r t re with
      | error e => simp [exec, hc, Except.map] at hexec
      | ok p =>
        obtain ⟨st2, pid⟩ := p
        simp only [exec, hc, Except.map, Except.ok.injEq] at hexec
        subst hexec
        obtain ⟨-, -, -, -, -, -, -, hst⟩ := proposeRestructuring_ok hc
        subst hst
        rfl
    | approveProposal s p ap => exact (approveProposal_shape hexec).2.1
    | executeProposal s n p => exact (executeProposal_shape hexec).2.1
    | markDebtResolved s d =>
      obtain ⟨-, -, -, hst⟩ := markDebtResolved_ok hexec
      subst hst
      rfl
    | markDebtDefaulted s d =>
      obtain ⟨-, -, -, hst⟩ := markDebtDefaulted_ok hexec
      subst hst
      rfl
    | setAuthorizedCreditor s c b =>
      obtain ⟨-, -, hst⟩ := setAuthorizedCreditor_ok hexec
      subst hst
      rfl

/-- The debt ids returned by the successful `createDebt` calls of a
transaction sequence, in order. -/
def createdIds : State → List Op → List Nat
  | _, [] => []
  | st, .createDebt s n a r t an :: ops =>
    match createDebt st s n a r t an with
    | .ok (st', i) => i :: createdIds st' ops
    | .error _ => createdIds st ops
  | st, op :: ops => createdIds (step st op) ops

theorem createdIds_eq_range (ops : List Op) : ∀ st : State,
    createdIds st ops
      = List.range' st.nextDebtId (createdIds st ops).length := by
  induction ops with
  | nil => intro st; rfl
  | cons op ops ih =>
    intro st
    cases op with
    | createDebt s n a r t an =>
      cases hc : createDebt st s n a r t an with
      | error e =>
        simp only [createdIds, hc]
        exact ih st
      | ok p =>
        obtain ⟨st', rid⟩ := p
        obtain ⟨-, -, -, hrid, hst⟩ := createDebt_ok hc
        simp only [createdIds, hc, List.length_cons, List.range'_succ]
        subst hrid
        subst hst
        exact congrArg _ (ih _)
    | proposeRestructuring s n d a r t re =>
      simp only [createdIds]
      rw [← nextDebtId_step st (.proposeRestructuring s n d a r t re) rfl]
      exact ih _
    | approveProposal s p ap =>
      simp only [createdIds]
      rw [← nextDebtId_step st (.approveProposal s p ap) rfl]
      exact ih _
    | executeProposal s n p =>
      simp only [createdIds]
      rw [← nextDebtId_step st (.executeProposal s n p) rfl]
      exact ih _
    | markDebtResolved s d =>
      simp only [createdIds]
      rw [← nextDebtId_step st (.markDebtResolved s d) rfl]
      exact ih _
    | markDebtDefaulted s d =>
      simp only [createdIds]
      rw [← nextDebtId_step st (.markDebtDefaulted s d) rfl]
      exact ih _
    | setAuthorizedCreditor s c b =>
      simp only [createdIds]
      rw [← nextDebtId_step st (.setAuthorizedCreditor s c b) rfl]
      exact ih _

/-- C6: over any transaction sequence from deployment, the ids returned
by the successful `createDebt` calls are the consecutive integers
1, 2, 3, ... (`List.range' 1 k`); and each successful `createDebt`
returns the current `nextDebtId`, increments it, and stores a record
with status ACTIVE, `remainingTerm = originalTerm = term` and
`createdAt` equal to the call's timestamp. -/
theorem C6_createDebt_sequential (d : Address) (ops : List Op)
    (st st' : State) (s n a r t : Nat) (an : Bool) (rid : Nat)
    (hc : createDebt st s n a r t an = .ok (st', rid)) :
    createdIds (initState d) ops
      = List.range' 1 (createdIds (initState d) ops).length ∧
    rid = st.nextDebtId ∧
    st'.nextDebtId = st.nextDebtId + 1 ∧
    (st'.debts rid).status = DebtStatus.ACTIVE ∧
    (st'.debts rid).remainingTerm = t ∧
    (st'.debts rid).originalTerm = t ∧
    (st'.debts rid).createdAt = n := by
  obtain ⟨-, -, -, hrid, hst⟩ := createDebt_ok hc
  subst hst
  subst hrid
  exact ⟨createdIds_eq_range ops (initState d), rfl, rfl,
    by simp [Function.update_same], by simp [Function.update_same],
    by simp [Function.update_same], by simp [Function.update_same]⟩

/-- Operation list for the C6 witness: two successful creations with a
resolution in between. -/
def c6Ops : List Op :=
  [ .createDebt 2 10 5 1 100 false,
    .markDebtResolved 2 1,
    .createDebt 3 12 7 2 50 true ]

/-- State after the first creation of the C6 witness. -/
def c6Post : State := run (initState 1) [ .createDebt 2 10 5 1 100 false ]

/-- Witness for C6 at a concrete input. -/
theorem C6_createDebt_sequential_witness :
    createdIds (initState 1) c6Ops
      = List.range' 1 (createdIds (initState 1) c6Ops).length ∧
    (1 : Nat) = (initState 1).nextDebtId ∧
    c6Post.nextDebtId = (initState 1).nextDebtId + 1 ∧
    (c6Post.debts 1).status = DebtStatus.ACTIVE ∧
    (c6Post.debts 1).remainingTerm = 100 ∧
    (c6Post.debts 1).originalTerm = 100 ∧
    (c6Post.debts 1).createdAt = 10 :=
  C6_createDebt_sequential 1 c6Ops (initState 1) c6Post 2 10 5 1 100 false 1 rfl


/-! ## Claim C7 -/

/-- C7: after `createDebt` with `isAnonymous = true`, `getDebtInfo` on the
returned id reports the zero debtor identity, while the stored record
still holds the true creator and the id is indexed under the creator in
`userDebts`. -/
theorem C7_anonymous_redaction (st st' : State) (s n a r t rid : Nat)
    (hs : s ≠ 0) (hnd : 0 < st.nextDebtId)
    (hc : createDebt st s n a r t true = .ok (st', rid)) :
    (∃ info, getDebtInfo st' rid = .ok info ∧ info.debtor = 0) ∧
    (st'.debts rid).debtor = s ∧
    rid ∈ st'.userDebts s := by
  obtain ⟨-, -, -, hrid, hst⟩ := createDebt_ok hc
  subst hst
  subst hrid
  have hv : validDebt
      { st with
        nextDebtId := st.nextDebtId + 1,
        debts := Function.update st.debts st.nextDebtId
          { debtor := s, encryptedAmount := a, encryptedInterestRate := r,
            originalTerm := t, remainingTerm := t, createdAt := n,
            status := .ACTIVE, isAnonymous := true,
            dataHash := .debtHash s a r t n },
        userDebts := Function.update st.userDebts s
          (st.userDebts s ++ [st.nextDebtId]) }
      st.nextDebtId = none := by
    simp [validDebt, Function.update_same, hnd, hs, Nat.lt_succ_self]
  refine ⟨?_, ?_, ?_⟩
  · simp only [getDebtInfo, hv]
    exact ⟨_, rfl, by simp [Function.update_same]⟩
  · simp [Function.update_same]
  · simp [Function.update_same]

/-- Post-state for the C7 witness: debtor 2 created anonymous debt 1. -/
def c7Post : State := run (initState 1) [ .createDebt 2 10 5 1 100 true ]

/-- Witness for C7 at a concrete input. -/
theorem C7_anonymous_redaction_witness :
    (∃ info, getDebtInfo c7Post 1 = .ok info ∧ info.debtor = 0) ∧
    (c7Post.debts 1).debtor = 2 ∧
    (1 : Nat) ∈ c7Post.userDebts 2 :=
  C7_anonymous_redaction (initState 1) c7Post 2 10 5 1 100 1
    (by decide) (by decide) rfl

/-! ## Claim C8 -/

/-- C8: `markDebtResolved` succeeds only for the recorded debtor on an
ACTIVE debt (otherwise it fails with the only-debtor or not-active
error), and on success sets RESOLVED with `remainingTerm = 0`; while a
debt is RESOLVED, every resolve, default or restructure call against it
fails. -/
theorem C8_markDebtResolved (st : State) (s d : Nat) :
    (∀ st', markDebtResolved st s d = .ok st' →
      (st.debts d).debtor = s ∧ (st.debts d).status = DebtStatus.ACTIVE ∧
      (st'.debts d).status = DebtStatus.RESOLVED ∧
      (st'.debts d).remainingTerm = 0) ∧
    ((st.debts d).debtor ≠ s → markDebtResolved st s d = .error .OnlyDebtor) ∧
    ((st.debts d).debtor = s → validDebt st d = none →
     (st.debts d).status ≠ DebtStatus.ACTIVE →
      markDebtResolved st s d = .error .DebtNotActive) ∧
    (∀ st2 : State, (st2.debts d).status = DebtStatus.RESOLVED →
      (∀ x, ∃ e, markDebtResolved st2 x d = .error e) ∧
      (∀ x, ∃ e, markDebtDefaulted st2 x d = .error e) ∧
      (∀ x n a r t re, ∃ e,
        proposeRestructuring st2 x n d a r t re = .error e)) := by
  refine ⟨?_, ?_, ?_, ?_⟩
  · intro st' h
    obtain ⟨hdeb, -, hact, hst⟩ := markDebtResolved_ok h
    subst hst
    exact ⟨hdeb, hact, by simp [Function.update_same],
      by simp [Function.update_same]⟩
  · intro h
    simp [markDebtResolved, h]
  · intro h1 hv h2
    simp [markDebtResolved, h1, hv, h2]
  · intro st2 hres
    refine ⟨?_, ?_, ?_⟩
    · intro x
      by_cases hx : (st2.debts d).debtor = x
      · cases hv2 : validDebt st2 d with
        | some e => exact ⟨e, by simp [markDebtResolved, hx, hv2]⟩
        | none =>
          exact ⟨.DebtNotActive, by simp [markDebtResolved, hx, hv2, hres]⟩
      · exact ⟨.OnlyDebtor, by simp [markDebtResolved, hx]⟩
    · intro x
      cases hv2 : validDebt st2 d with
      | some e => exact ⟨e, by simp [markDebtDefaulted, hv2]⟩
      | none =>
        by_cases hauth : st2.authorizedCreditors x = true
        · exact ⟨.CannotDefault,
            by simp [markDebtDefaulted, hv2, hauth, hres]⟩
        · by_cases hown : x = st2.owner
          · exact ⟨.CannotDefault,
              by simp [markDebtDefaulted, hv2, hauth, hown, hres]⟩
          · exact ⟨.NotAuthorizedDefault,
              by simp [markDebtDefaulted, hv2, hauth, hown]⟩
    · intro x n a r t re
      cases hv2 : validDebt st2 d with
      | some e => exact ⟨e, by simp [proposeRestructuring, hv2]⟩
      | none =>
        exact ⟨.DebtNotEligible, by simp [proposeRestructuring, hv2, hres]⟩

/-- Pre-state for the C8 witness: debt 1 (debtor 2) ACTIVE. -/
def c8Pre : State := run (initState 1) [ .createDebt 2 10 5 1 100 false ]

/-- Post-state for the C8 witness: debtor 2 resolved debt 1. -/
def c8Post : State := run c8Pre [ .markDebtResolved 2 1 ]

/-- Witness for C8 at a concrete input. -/
theorem C8_markDebtResolved_witness :
    ((c8Pre.debts 1).debtor = 2 ∧
     (c8Pre.debts 1).status = DebtStatus.ACTIVE ∧
     (c8Post.debts 1).status = DebtStatus.RESOLVED ∧
     (c8Post.debts 1).remainingTerm = 0) ∧
    (∃ e, markDebtResolved c8Post 2 1 = .error e) ∧
    (∃ e, markDebtDefaulted c8Post 1 1 = .error e) ∧
    (∃ e, proposeRestructuring c8Post 2 13 1 6 1 200 "again" = .error e) :=
  ⟨(C8_markDebtResolved c8Pre 2 1).1 c8Post rfl,
   ((C8_markDebtResolved c8Pre 2 1).2.2.2 c8Post (by decide)).1 2,
   ((C8_markDebtResolved c8Pre 2 1).2.2.2 c8Post (by decide)).2.1 1,
   ((C8_markDebtResolved c8Pre 2 1).2.2.2 c8Post (by decide)).2.2 2 13 6 1 200 "again"⟩

/-! ## Claim C9 -/

/-- C9: a mutating call that fails leaves the whole ledger state
unchanged (the transaction reverts); in particular
`setAuthorizedCreditor` by a non-owner fails with the only-owner error
and the creditor allow-list is exactly what it was. -/
theorem C9_fail_closed (st : State) (op : Op) (e : Err) (s c : Nat)
    (b : Bool) :
    (exec st op = .error e → step st op = st) ∧
    (s ≠ st.owner →
      setAuthorizedCreditor st s c b = .error .OnlyOwner ∧
      (step st (.setAuthorizedCreditor s c b)).authorizedCreditors
        = st.authorizedCreditors) := by
  constructor
  · exact step_of_error
  · intro hs
    have he : setAuthorizedCreditor st s c b = .error .OnlyOwner := by
      simp [setAuthorizedCreditor, hs]
    refine ⟨he, ?_⟩
    rw [@step_of_error st (.setAuthorizedCreditor s c b) .OnlyOwner
      (by simp [exec, he])]

/-- Witness for C9 at a concrete input: a `createDebt` with zero amount
reverts and changes nothing, and non-owner 2 cannot touch the allow-list. -/
theorem C9_fail_closed_witness :
    step (initState 1) (.createDebt 2 10 0 1 100 false) = initState 1 ∧
    (setAuthorizedCreditor (initState 1) 2 3 true = .error .OnlyOwner ∧
     (step (initState 1) (.setAuthorizedCreditor 2 3 true)).authorizedCreditors
       = (initState 1).authorizedCreditors) :=
  ⟨(C9_fail_closed (initState 1) (.createDebt 2 10 0 1 100 false)
      .AmountNotPositive 2 3 true).1 rfl,
   (C9_fail_closed (initState 1) (.createDebt 2 10 0 1 100 false)
      .AmountNotPositive 2 3 true).2 (by decide)⟩

/-! ## Claim C10 -/

/-- C10: on a PENDING proposal with no votes yet, a caller who is both
the parent debt's debtor and an authorized creditor (e.g. the owner
voting on a debt it created) sets both approval flags with one
`approveProposal(pid, true)` call and the proposal goes straight from
PENDING to ACCEPTED. -/
theorem C10_dual_role_single_vote (st : State) (s pid : Nat)
    (hv : validProposal st pid = none)
    (hpend : (st.proposals pid).status = ProposalStatus.PENDING)
    (hcred : st.authorizedCreditors s = true)
    (hdeb : (st.debts (st.proposals pid).debtId).debtor = s)
    (hca : (st.proposals pid).creditorApproval = false)
    (hda : (st.proposals pid).debtorApproval = false) :
    ∃ st', approveProposal st s pid true = .ok st' ∧
      (st'.proposals pid).creditorApproval = true ∧
      (st'.proposals pid).debtorApproval = true ∧
      (st'.proposals pid).status = ProposalStatus.ACCEPTED := by
  simp only [approveProposal, hv, hpend, hcred, hdeb, hca, hda]
  refine ⟨_, rfl, ?_, ?_, ?_⟩ <;> simp [Function.update_same]

/-- Trace for the C10 witness: owner 1 (auto-authorized creditor)
creates its own debt and proposes restructuring; proposal 1 is PENDING
with no votes. -/
def c10State : State :=
  run (initState 1)
    [ .createDebt 1 10 5 1 100 false,
      .proposeRestructuring 1 11 1 7 2 300 "better terms" ]

/-- Witness for C10 at a concrete input. -/
theorem C10_dual_role_single_vote_witness :
    ∃ st', approveProposal c10State 1 1 true = .ok st' ∧
      (st'.proposals 1).creditorApproval = true ∧
      (st'.proposals 1).debtorApproval = true ∧
      (st'.proposals 1).status = ProposalStatus.ACCEPTED :=
  C10_dual_role_single_vote c10State 1 1 (by decide) (by decide)
    (by decide) (by decide) (by decide) (by decide)

end DebtManager
